import Mathlib

/-!
Shallow embedding of the cutesy-agent-router repository
(`src/cline_telegram_bot.py` and `src/cutesy-agent-router-refactor.py`).

Python strings are modelled as `List Char` (a Python `str` is a sequence of
code points).  Times (`time.time()` values) are modelled as rationals.
Each definition mirrors one function of the source; the line references are
given in the doc comments.
-/

/-- Shorthand: the code points of a Lean string literal. -/
def lc (s : String) : List Char := s.data

/-- Python whitespace test for ASCII text (`str.strip`, regex `\s`):
space, tab, newline, carriage return, vertical tab, form feed. -/
def pyIsSpace (c : Char) : Bool :=
  c = ' ' || c = '\t' || c = '\n' || c = '\r' || c = '\x0b' || c = '\x0c'

/-- `l` consists of whitespace only. -/
def wsOnly (l : List Char) : Bool := l.all pyIsSpace

/-- Python `str.strip()`: drop leading and trailing whitespace. -/
def pyStrip (l : List Char) : List Char :=
  ((l.dropWhile pyIsSpace).reverse.dropWhile pyIsSpace).reverse

/-- Case folding used to model `re.IGNORECASE` (the patterns are ASCII). -/
def lowerStr (l : List Char) : List Char := l.map Char.toLower

/-- Python `needle in hay` (substring containment). -/
def substrIn (needle hay : List Char) : Bool :=
  match hay with
  | [] => needle.isEmpty
  | _ :: t => needle.isPrefixOf hay || substrIn needle t

/-! ### `strip_ansi_codes` (cline_telegram_bot.py 16-19, refactor 60-62)

`re.sub` with pattern ESC then `(?:[@-Z\\-_]|\[[0-?]*[\x20-\x2F]*[@-~])`:
ESC followed either by one character in `0x40-0x5A ∪ 0x5C-0x5F`, or by `[`,
a run of parameter bytes 0x30-0x3F, a run of intermediate bytes
0x20-0x2F and one final byte `0x40-0x7E`.  `re.sub` scans left to right,
removing each match and continuing after it; at a position with no match it
keeps the character and moves on one. -/

/-- Second byte of a two-character escape: `[@-Z\\-_]` = 0x40-0x5A ∪ 0x5C-0x5F. -/
def isEscSingleFinal (c : Char) : Bool :=
  (0x40 ≤ c.toNat && c.toNat ≤ 0x5A) || (0x5C ≤ c.toNat && c.toNat ≤ 0x5F)

/-- CSI parameter byte `[0-?]`. -/
def isCsiParam (c : Char) : Bool := 0x30 ≤ c.toNat && c.toNat ≤ 0x3F

/-- CSI intermediate byte, range 0x20 to 0x2F. -/
def isCsiInter (c : Char) : Bool := 0x20 ≤ c.toNat && c.toNat ≤ 0x2F

/-- CSI final byte `[@-~]`. -/
def isCsiFinal (c : Char) : Bool := 0x40 ≤ c.toNat && c.toNat ≤ 0x7E

/-- Match the CSI tail (parameter bytes, then intermediate bytes, then one final byte) at the head of `l`; on success return the rest.
The three byte ranges are disjoint, so the greedy match needs no backtracking. -/
def matchCsiTail (l : List Char) : Option (List Char) :=
  match (l.dropWhile isCsiParam).dropWhile isCsiInter with
  | [] => none
  | f :: rest => if isCsiFinal f then some rest else none

/-- The scan of `re.sub`, with a fuel argument bounding the number of steps;
`fuel ≥ l.length` always suffices (each step consumes at least one character). -/
def stripAnsiGo : Nat → List Char → List Char
  | 0, l => l
  | _, [] => []
  | fuel + 1, c :: rest =>
    if c = '\x1b' then
      match rest with
      | [] => [c]
      | d :: rest2 =>
        if isEscSingleFinal d then stripAnsiGo fuel rest2
        else if d = '[' then
          match matchCsiTail rest2 with
          | some rest3 => stripAnsiGo fuel rest3
          | none => c :: stripAnsiGo fuel rest
        else c :: stripAnsiGo fuel rest
    else c :: stripAnsiGo fuel rest

/-- `strip_ansi_codes` of both source files. -/
def strip_ansi_codes (l : List Char) : List Char := stripAnsiGo l.length l

/-! ### Prompt-pattern matching

The prompt patterns of both files use only literals, `.*` (any run of
non-newline characters), character classes of explicit alternatives, an
optional trailing `\s*$`, and `re.search` with `re.IGNORECASE`.
`X\s*$` search-matches a string exactly when some occurrence of `X` is
followed by whitespace only (`$` matches at the end or before a final
newline, and `\s*` absorbs that newline as well), so an anchored pattern
is modelled by requiring a whitespace-only remainder. -/

/-- One token of a prompt pattern. -/
inductive RTok where
  /-- a literal, stored lowercase -/
  | lit : List Char → RTok
  /-- `.*`: any run of non-newline characters -/
  | dotStar : RTok
  /-- a character class of explicit alternatives -/
  | cls : List Char → RTok
deriving DecidableEq

/-- A prompt pattern: a token sequence, and whether it is end-anchored
(followed by `\s*$`). -/
structure Pat where
  toks : List RTok
  anch : Bool
deriving DecidableEq

/-- The suffixes of `s` that `.*` can leave: drop any number of leading
non-newline characters. -/
def starSuffixes : List Char → List (List Char)
  | [] => [[]]
  | c :: rest => (c :: rest) :: (if c = '\n' then [] else starSuffixes rest)

/-- Match a token sequence at the start of `s`; with `anch` the remainder
must be whitespace only, otherwise anything may follow. -/
def matchToks (anch : Bool) : List RTok → List Char → Bool
  | [], s => if anch then wsOnly s else true
  | .lit l :: ts, s => l.isPrefixOf s && matchToks anch ts (s.drop l.length)
  | .cls cs :: ts, s =>
    match s with
    | [] => false
    | c :: rest => cs.contains c && matchToks anch ts rest
  | .dotStar :: ts, s => (starSuffixes s).any (fun s2 => matchToks anch ts s2)

/-- All suffixes of `s`: the start positions `re.search` tries. -/
def allSuffixes : List Char → List (List Char)
  | [] => [[]]
  | c :: rest => (c :: rest) :: allSuffixes rest

/-- `re.search(pattern, text, re.IGNORECASE)` as a Boolean: the pattern
matches at some position of the lowercased text. -/
def patSearch (p : Pat) (s : List Char) : Bool :=
  (allSuffixes (lowerStr s)).any (fun s2 => matchToks p.anch p.toks s2)

/-- `PTYAgent._get_prompt_patterns` (refactor 231-239): every pattern is
end-anchored with `\s*$`. -/
def promptPatternsRefactor : List Pat :=
  [ ⟨[.lit (lc "[y/n]")], true⟩, ⟨[.lit (lc "[y/n]")], true⟩,
    ⟨[.lit (lc "(y/n)")], true⟩, ⟨[.lit (lc "(y/n)")], true⟩,
    ⟨[.lit (lc "continue?")], true⟩, ⟨[.lit (lc "proceed?")], true⟩,
    ⟨[.lit (lc "are you sure?")], true⟩,
    ⟨[.lit (lc "enter "), .dotStar, .lit (lc ":")], true⟩,
    ⟨[.lit (lc "password:")], true⟩,
    ⟨[.lit (lc "press"), .dotStar, .lit (lc "enter"), .dotStar,
      .lit (lc "to"), .dotStar, .lit (lc "continue")], true⟩,
    ⟨[.lit (lc "press"), .dotStar, .lit (lc "any"), .dotStar, .lit (lc "key")], true⟩,
    ⟨[.lit (lc "["), .dotStar, .lit (lc "]")], true⟩,
    ⟨[.lit (lc "press "), .dotStar, .lit (lc "to exit")], true⟩,
    ⟨[.lit (lc "press "), .dotStar, .lit (lc " to return")], true⟩ ]

/-- `prompt_patterns` of `ClineTelegramBot._process_output`
(cline_telegram_bot.py 437-446): only the field prompts and the generic
bracket fallback are end-anchored; the rest match anywhere. -/
def promptPatternsLegacy : List Pat :=
  [ ⟨[.lit (lc "[y/n]")], false⟩, ⟨[.lit (lc "[y/n]")], false⟩,
    ⟨[.lit (lc "(y/n)")], false⟩, ⟨[.lit (lc "(y/n)")], false⟩,
    ⟨[.lit (lc "continue?")], false⟩, ⟨[.lit (lc "proceed?")], false⟩,
    ⟨[.lit (lc "are you sure?")], false⟩,
    ⟨[.lit (lc "enter "), .dotStar, .lit (lc ":")], true⟩,
    ⟨[.lit (lc "password:")], true⟩,
    ⟨[.lit (lc "press"), .dotStar, .lit (lc "enter"), .dotStar,
      .lit (lc "to"), .dotStar, .lit (lc "continue")], false⟩,
    ⟨[.lit (lc "press"), .dotStar, .lit (lc "any"), .dotStar, .lit (lc "key")], false⟩,
    ⟨[.lit (lc "["), .dotStar, .lit (lc "]")], true⟩,
    ⟨[.lit (lc "press "), .dotStar, .lit (lc "to exit")], false⟩,
    ⟨[.lit (lc "press "), .dotStar, .lit (lc " to return")], false⟩ ]

/-- The continuation-prompt fallback of the legacy bot (line 462):
pattern with a leading bracket-or-paren class, `.*`, and a closing
bracket-or-paren class, end-anchored. -/
def legacyFallbackPat : Pat :=
  ⟨[.cls ['[', '('], .dotStar, .cls [']', ')']], true⟩

/-! ### Bounded queues

`deque(maxlen=n)` appends evicting from the left at capacity (refactor
169, 459, 664); the legacy bot appends to an unbounded deque and pops the
oldest entry when the length exceeds 100 (cline_telegram_bot.py 474-481).
Both behaviours are the same append. -/

/-- Append to a deque of capacity `maxlen`, evicting the oldest entry
when the length would exceed it. -/
def boundedAppend (maxlen : Nat) (q : List α) (c : α) : List α :=
  if maxlen < (q ++ [c]).length then (q ++ [c]).tail else q ++ [c]

/-! ### `PTYAgent` (refactor 158-319)

State of a `PTYAgent`; the resource counters make the external effects
of `start` explicit: `ptys` counts pseudo-terminal pairs allocated by
`pty.openpty()`, `procs` counts child processes spawned by
`subprocess.Popen`. -/

structure PTYAgentState where
  is_running_flag : Bool
  waiting_for_input : Bool
  input_prompt : List Char
  last_prompt_time : ℚ
  output_queue : List (List Char)
  ptys : Nat
  procs : Nat
deriving DecidableEq

/-- The freshly constructed agent (refactor 161-176). -/
def ptyInitialState : PTYAgentState :=
  ⟨false, false, [], 0, [], 0, 0⟩

/-- `PTYAgent._process_output` (refactor 206-225) for the base class,
whose `_should_filter_output` always returns `False` (227-229): strip
control sequences, set the waiting state on the first matching prompt
pattern, append to the bounded queue.  `now` is the value of
`time.time()`. -/
def pty_process_output (st : PTYAgentState) (output : List Char) (now : ℚ) :
    PTYAgentState :=
  let clean := strip_ansi_codes output
  let st1 :=
    if promptPatternsRefactor.any (fun p => patSearch p clean) then
      { st with waiting_for_input := true, input_prompt := pyStrip clean,
                last_prompt_time := now }
    else st
  { st1 with output_queue := boundedAppend 100 st1.output_queue clean }

/-- `PTYAgent.start` (refactor 241-269).  `dies` tells whether the
spawned process exits within the 0.5 s grace period (`process.poll()`
is not `None`).  The method performs no already-running check: it
always allocates a new pseudo-terminal and spawns a new child; on the
immediate-death path the exception is caught and `False` returned,
without releasing the resources. -/
def pty_start (st : PTYAgentState) (dies : Bool) : PTYAgentState × Bool :=
  let st1 := { st with ptys := st.ptys + 1, procs := st.procs + 1 }
  if dies then (st1, false)
  else ({ st1 with is_running_flag := true }, true)

/-- `PTYAgent.send_command` (refactor 285-301).  `writeErr` is `some e`
when `os.write` raises an exception with text `e`.  Returns the new
state, the result string, and the list of byte strings written to the
terminal.  The waiting state is cleared before the write. -/
def pty_send_command (st : PTYAgentState) (command : List Char)
    (writeErr : Option (List Char)) :
    PTYAgentState × List Char × List (List Char) :=
  if st.is_running_flag = false then (st, lc "Error: Agent not running", [])
  else
    let st1 := { st with waiting_for_input := false, input_prompt := [] }
    match writeErr with
    | none => (st1, lc "Command sent", [command ++ lc "\r\n"])
    | some e => (st1, lc "Error: " ++ e, [])

/-- The drain loop of `PTYAgent.get_output` (refactor 309-315) and
`ClineTelegramBot.get_pending_output` (cline_telegram_bot.py 562-575)
with `max_length = 4000`: pop chunks while the accumulator is under
4000 characters; a chunk that would push it past 4000 is put back at
the front.  Returns the remaining queue and the accumulated text. -/
def get_output_drain : List (List Char) → List Char → List (List Char) × List Char
  | [], acc => ([], acc)
  | c :: rest, acc =>
    if acc.length < 4000 then
      if 4000 < (acc ++ c).length then (c :: rest, acc)
      else get_output_drain rest (acc ++ c)
    else (c :: rest, acc)

/-- `PTYAgent.get_output` (refactor 303-319): `none` on an empty queue
or whitespace-only accumulation, otherwise the stripped accumulated
text.  The queue state after the call is returned alongside. -/
def pty_get_output (q : List (List Char)) : Option (List Char) × List (List Char) :=
  match q with
  | [] => (none, q)
  | _ =>
    let r := get_output_drain q []
    if pyStrip r.2 ≠ [] then (some (pyStrip r.2), r.1) else (none, r.1)

/-! ### `ACPAgent` (refactor 448-526) -/

/-- State of an `ACPAgent`: the role-tagged conversation history and
the output queue (`deque(maxlen=50)`, refactor 459). -/
structure ACPState where
  is_running_flag : Bool
  conversation_history : List (List Char × List Char)
  output_queue : List (List Char)
deriving DecidableEq

/-- `ACPAgent.send_command` (refactor 475-507).  `reply` is the value
of `_call_api`: `none` on non-200 status, missing reply field, or an
exception inside `_call_api` (refactor 541-569, all three return
`None`).  The user turn is appended before the endpoint is called and
is not rolled back on failure. -/
def acp_send_command (st : ACPState) (command : List Char)
    (reply : Option (List Char)) : ACPState × List Char :=
  if st.is_running_flag = false then (st, lc "Error: Agent not running")
  else
    let st1 := { st with conversation_history :=
                  st.conversation_history ++ [(lc "user", command)] }
    match reply with
    | some r =>
      ({ st1 with
          conversation_history := st1.conversation_history ++ [(lc "assistant", r)],
          output_queue := boundedAppend 50 st1.output_queue r },
       lc "Message sent")
    | none => (st1, lc "Error: No response from agent")

/-- The drain loop of `ACPAgent.get_output` (refactor 519-522): pop
chunks while the accumulator is under 4000 characters, appending each
whole chunk plus a newline with no budget check. -/
def acp_drain : List (List Char) → List Char → List Char × List (List Char)
  | [], acc => (acc, [])
  | c :: rest, acc =>
    if acc.length < 4000 then acp_drain rest (acc ++ c ++ ['\n'])
    else (acc, c :: rest)

/-- `ACPAgent.get_output` (refactor 513-526). -/
def acp_get_output (q : List (List Char)) : Option (List Char) × List (List Char) :=
  match q with
  | [] => (none, q)
  | _ =>
    let r := acp_drain q []
    if pyStrip r.1 ≠ [] then (some (pyStrip r.1), r.2) else (none, r.2)

/-! ### `ClineTelegramBot` (cline_telegram_bot.py 48-590)

The box-drawing strings of `_process_output` are embedded exactly as the
source file stores them (the file holds the three-character sequences
below, not single box-drawing characters). -/

/-- The `is_box_char` membership list (cline_telegram_bot.py 417). -/
def legacyBoxStrings : List (List Char) :=
  [lc "‚ï≠", lc "‚ï∞", lc "‚îÇ", lc "‚îÉ", lc "‚ïÆ", lc "‚ïØ"]

/-- The characters of the `is_box_line` class (line 418), besides `\s`. -/
def legacyBoxLineChars : List Char := lc "‚îÇÉï≠∞ÆØ"

/-- `bool(re.match(r'^[...]+$', s))` for the box-line class: `s` is
nonempty and all of its characters are whitespace or class members. -/
def legacyIsBoxLine (s : List Char) : Bool :=
  !s.isEmpty && s.all (fun c => pyIsSpace c || legacyBoxLineChars.contains c)

/-- The `mode_indicators` of line 424. -/
def legacyModeIndicators : List (List Char) :=
  [lc "switch to plan mode", lc "switch to act mode", lc "plan mode", lc "act mode"]

/-- State of a `ClineTelegramBot` (49-81), with the same resource
counters as `PTYAgentState`. -/
structure ClineBotState where
  is_running : Bool
  session_active : Bool
  waiting_for_input : Bool
  input_prompt : List Char
  last_prompt_time : ℚ
  current_command : Option (List Char)
  output_queue : List (List Char)
  ptys : Nat
  procs : Nat
deriving DecidableEq

/-- The freshly constructed bot (49-81). -/
def legacyInitialState : ClineBotState :=
  ⟨false, false, false, [], 0, none, [], 0, 0⟩

/-- `ClineTelegramBot._process_output` (398-481): strip control
sequences; drop pure short UI noise; run the prompt patterns, then the
continuation-prompt fallback (which does not update
`last_prompt_time`); append to the queue, popping the oldest entry past
100. -/
def legacy_process_output (st : ClineBotState) (output : List Char) (now : ℚ) :
    ClineBotState :=
  let clean := strip_ansi_codes output
  let stripped := pyStrip clean
  let is_welcome_screen := substrIn (lc "cline cli") clean
  let is_box_char := legacyBoxStrings.contains stripped
  let is_box_line := legacyIsBoxLine stripped
  let is_mode_switch :=
    (st.current_command = some (lc "/plan") || st.current_command = some (lc "/act")) &&
      legacyModeIndicators.any (fun ind => substrIn ind (lowerStr clean))
  let is_mostly_empty_ui := (is_box_char || is_box_line) && stripped.length ≤ 3
  if !is_welcome_screen && !is_mode_switch && is_mostly_empty_ui then st
  else
    let st1 :=
      if promptPatternsLegacy.any (fun p => patSearch p clean) then
        { st with waiting_for_input := true, input_prompt := stripped,
                  last_prompt_time := now }
      else if patSearch legacyFallbackPat stripped then
        { st with waiting_for_input := true, input_prompt := stripped }
      else st
    { st1 with output_queue := boundedAppend 100 st1.output_queue clean }

/-- `ClineTelegramBot.start_pty_session` (159-253): refuses when a
session is already active; otherwise allocates a terminal and spawns
the child; if the child dies within the grace period the exception
path runs `_cleanup_resources` (336-362), which kills the process,
closes both descriptors and clears the queue. -/
def start_pty_session (st : ClineBotState) (dies : Bool) : ClineBotState × Bool :=
  if st.session_active then (st, false)
  else if dies then
    ({ st with is_running := false, session_active := false, output_queue := [] },
     false)
  else
    ({ st with is_running := true, session_active := true,
               ptys := st.ptys + 1, procs := st.procs + 1 },
     true)

/-- `ClineTelegramBot.send_command` (483-532): refuse when not running;
clear a stale waiting state (older than 30 s); clear the waiting state
before writing; on a write error return the error text with the state
already cleared. -/
def legacy_send_command (st : ClineBotState) (command : List Char) (now : ℚ)
    (writeErr : Option (List Char)) :
    ClineBotState × List Char × List (List Char) :=
  if st.is_running = false then (st, lc "Error: PTY session not running", [])
  else
    let st1 :=
      if st.waiting_for_input && 30 < now - st.last_prompt_time then
        { st with waiting_for_input := false, input_prompt := [] }
      else st
    let st2 := { st1 with waiting_for_input := false, input_prompt := [] }
    match writeErr with
    | none =>
      ({ st2 with current_command := some command }, lc "Command sent",
       [command ++ lc "\r\n"])
    | some e => (st2, lc "Error sending command: " ++ e, [])

/-! ### `AgentChatBridge` (refactor 656-1173) -/

/-- Outcome of dispatching a free-text message. -/
inductive MsgAction where
  | notRunningReply
  | tooLong
  | rateLimited
  | forwarded
deriving DecidableEq

/-- Per-sender rate-limit state of the bridge (refactor 668-672).  The
`_last_message_time` dict is modelled as a partial map from sender ids
to timestamps. -/
structure RateState where
  last_message_time : List Char → Option ℚ
  last_cleanup : ℚ

/-- Python dict assignment. -/
def dictSet (m : List Char → Option ℚ) (k : List Char) (v : ℚ) :
    List Char → Option ℚ :=
  fun k2 => if k2 = k then some v else m k2

/-- The hourly purge (refactor 931-939): drop entries idle for more
than 24 hours (86400 s). -/
def purgeStale (m : List Char → Option ℚ) (now : ℚ) : List Char → Option ℚ :=
  fun k =>
    match m k with
    | some ts => if now - ts ≤ 86400 then some ts else none
    | none => none

/-- `AgentChatBridge.handle_regular_message` (refactor 915-951) and
`handle_regular_message_from_chat` (1119-1154): reject when the agent
is not running or the text exceeds 10000 characters; run the hourly
purge; reject a sender whose previous accepted message is less than
0.5 s old (rate limit 500 ms), without updating the timestamp;
otherwise record the time and forward the text to the agent. -/
def handle_regular_message (rs : RateState) (agentRunning : Bool)
    (sender text : List Char) (now : ℚ) : RateState × MsgAction :=
  if agentRunning = false then (rs, .notRunningReply)
  else if 10000 < text.length then (rs, .tooLong)
  else
    let rs1 :=
      if 3600 < now - rs.last_cleanup then
        { last_message_time := purgeStale rs.last_message_time now,
          last_cleanup := now }
      else rs
    match rs1.last_message_time sender with
    | some ts =>
      if now - ts < 1/2 then (rs1, .rateLimited)
      else
        ({ rs1 with last_message_time := dictSet rs1.last_message_time sender now },
         .forwarded)
    | none =>
      ({ rs1 with last_message_time := dictSet rs1.last_message_time sender now },
       .forwarded)

/-- The duplicate-suppression update of `AgentChatBridge._filter_output`
(refactor 1016-1020) on the `_recent_hashes` deque (`maxlen=10`,
refactor 664): a repeated fingerprint suppresses the message and leaves
the history unchanged; a new one is appended, evicting at capacity.
Returns the new history and whether the message is emitted. -/
def filter_output_hashes (recent : List Int) (h : Int) : List Int × Bool :=
  if recent.contains h then (recent, false)
  else (boundedAppend 10 recent h, true)

/-- Python `set.add` on the legacy monitor's `recent_messages`: the set
is represented by the list of its members in insertion order (the
language exposes no order); adding a present element changes nothing. -/
def pySetAdd (s : List Int) (h : Int) : List Int :=
  if h ∈ s then s else s ++ [h]

/-- The `recent_messages` update of the legacy `output_monitor`
(cline_telegram_bot.py 913-916: `recent_messages.add(ui_hash)` followed
by `if len(recent_messages) > MAX_RECENT_MESSAGES:
recent_messages.pop()` with `MAX_RECENT_MESSAGES = 10`; lines 973-976
have the same shape).  `recent_messages` is an unordered `set`, and
`set.pop()` removes and returns an arbitrary element — the language
guarantees only that it is a member; `pick` names the element the
interpreter returns. -/
def legacy_recent_update (s : List Int) (h : Int) (pick : Int) : List Int :=
  if 10 < (pySetAdd s h).length then (pySetAdd s h).erase pick
  else pySetAdd s h

/-- The `/start` branch of `AgentChatBridge.handle_command` (refactor
711-728) and `handle_command_from_chat` (1046-1057): when
`agent.is_running()` the bridge replies "already running" and does not
call `start`. -/
inductive StartOutcome where
  | alreadyRunning
  | started
  | failed
deriving DecidableEq

/-- Bridge-level `/start` over a PTY agent. -/
def bridge_handle_start (st : PTYAgentState) (dies : Bool) :
    PTYAgentState × StartOutcome :=
  if st.is_running_flag then (st, .alreadyRunning)
  else
    match pty_start st dies with
    | (st1, true) => (st1, .started)
    | (st1, false) => (st1, .failed)

/-! ## Helper lemmas -/

theorem boundedAppend_length_le {α : Type} {n : Nat} (q : List α) (c : α)
    (h : q.length ≤ n) : (boundedAppend n q c).length ≤ n := by
  simp only [boundedAppend]
  split_ifs with hlt
  · rw [List.length_tail, List.length_append]
    simp only [List.length_singleton]
    omega
  · rw [List.length_append] at hlt ⊢
    simp only [List.length_singleton] at hlt ⊢
    omega

theorem boundedAppend_tail {α : Type} {n : Nat} (q : List α) (c : α)
    (h : q.length = n) (hn : 0 < n) : boundedAppend n q c = q.tail ++ [c] := by
  cases q with
  | nil => simp at h; omega
  | cons x xs =>
    simp only [boundedAppend]
    rw [if_pos]
    · simp
    · simp only [List.cons_append, List.length_cons, List.length_append,
        List.length_singleton]
      simp only [List.length_cons] at h
      omega

theorem foldl_boundedAppend_length_le {α : Type} {n : Nat}
    (chunks : List α) (q : List α) (h : q.length ≤ n) :
    (chunks.foldl (boundedAppend n) q).length ≤ n := by
  induction chunks generalizing q with
  | nil => simpa
  | cons c cs ih => exact ih _ (boundedAppend_length_le q c h)

theorem get_output_drain_length_le (q : List (List Char)) (acc : List Char)
    (h : acc.length ≤ 4000) : ((get_output_drain q acc).2).length ≤ 4000 := by
  induction q generalizing acc with
  | nil => simpa [get_output_drain]
  | cons c rest ih =>
    simp only [get_output_drain]
    split_ifs with h1 h2
    · simpa
    · exact ih (acc ++ c) (by omega)
    · simpa

theorem get_output_drain_prefix_acc (q : List (List Char)) (acc : List Char) :
    acc <+: (get_output_drain q acc).2 := by
  induction q generalizing acc with
  | nil => simp [get_output_drain]
  | cons c rest ih =>
    simp only [get_output_drain]
    split_ifs with h1 h2
    · simp
    · exact List.IsPrefix.trans (List.prefix_append acc c) (ih (acc ++ c))
    · simp

theorem length_dropWhile_le (p : Char → Bool) (l : List Char) :
    (l.dropWhile p).length ≤ l.length :=
  List.Sublist.length_le (List.dropWhile_sublist p)

theorem pyStrip_length_le (l : List Char) : (pyStrip l).length ≤ l.length := by
  simp only [pyStrip, List.length_reverse]
  exact le_trans (length_dropWhile_le _ _)
    (by simpa using length_dropWhile_le pyIsSpace l)

theorem stripAnsiGo_of_noEsc (fuel : Nat) (l : List Char)
    (h : '\x1b' ∉ l) : stripAnsiGo fuel l = l := by
  induction fuel generalizing l with
  | zero => cases l <;> rfl
  | succ n ih =>
    cases l with
    | nil => rfl
    | cons c rest =>
      have hc : ¬ (c = '\x1b') := by
        intro hc
        exact h (hc ▸ List.mem_cons_self c rest)
      have hr : '\x1b' ∉ rest := fun hm => h (List.mem_cons_of_mem c hm)
      simp [stripAnsiGo, hc, ih rest hr]

theorem strip_ansi_codes_of_noEsc (l : List Char) (h : '\x1b' ∉ l) :
    strip_ansi_codes l = l :=
  stripAnsiGo_of_noEsc l.length l h

theorem pty_get_output_length_le (q : List (List Char)) (s : List Char)
    (h : (pty_get_output q).1 = some s) : s.length ≤ 4000 := by
  cases q with
  | nil => simp [pty_get_output] at h
  | cons c rest =>
    simp only [pty_get_output] at h
    split_ifs at h with h1
    have hs : s = pyStrip (get_output_drain (c :: rest) []).2 := by
      simpa using h.symm
    rw [hs]
    exact le_trans (pyStrip_length_le _)
      (get_output_drain_length_le (c :: rest) [] (by simp))

theorem pty_get_output_oversized (c : List Char) (rest : List (List Char))
    (h : 4000 < c.length) : pty_get_output (c :: rest) = (none, c :: rest) := by
  have hdrain : get_output_drain (c :: rest) [] = (c :: rest, []) := by
    simp [get_output_drain, h]
  simp [pty_get_output, hdrain, pyStrip]

theorem get_output_drain_head_fits (c : List Char) (rest : List (List Char))
    (h : c.length ≤ 4000) : c <+: (get_output_drain (c :: rest) []).2 := by
  have hfit : ¬ (4000 < c.length) := Nat.not_lt.mpr h
  have hstep : get_output_drain (c :: rest) [] = get_output_drain rest c := by
    simp [get_output_drain, hfit]
  rw [hstep]
  exact get_output_drain_prefix_acc rest c

theorem dropWhile_replicate_a (n : Nat) :
    (List.replicate (n + 1) 'a').dropWhile pyIsSpace = List.replicate (n + 1) 'a' := by
  rw [List.replicate_succ, List.dropWhile_cons_of_neg (by decide)]

theorem pyStrip_replicate_append_newline (n : Nat) :
    pyStrip (List.replicate (n + 1) 'a' ++ ['\n']) = List.replicate (n + 1) 'a' := by
  unfold pyStrip
  rw [List.replicate_succ, List.cons_append,
    List.dropWhile_cons_of_neg (by decide), ← List.cons_append, ← List.replicate_succ,
    List.reverse_append]
  simp only [List.reverse_cons, List.reverse_nil, List.nil_append, List.reverse_replicate,
    List.singleton_append]
  rw [List.dropWhile_cons_of_pos (by decide), dropWhile_replicate_a, List.reverse_replicate]

theorem acp_get_output_replicate (n : Nat) :
    (acp_get_output [List.replicate (n + 1) 'a']).1 = some (List.replicate (n + 1) 'a') := by
  have hdrain : acp_drain [List.replicate (n + 1) 'a'] [] =
      (List.replicate (n + 1) 'a' ++ ['\n'], []) := by
    simp [acp_drain]
  have hne : pyStrip (List.replicate (n + 1) 'a' ++ ['\n']) ≠ [] := by
    rw [pyStrip_replicate_append_newline]
    intro hcontra
    have := congrArg List.length hcontra
    simp at this
  simp only [acp_get_output, hdrain, hne, if_pos, ne_eq, not_false_eq_true, if_true]
  rw [pyStrip_replicate_append_newline]

/-! ## Claim theorems -/

/-- C1 (code_bug): the claim says a prompt pattern occurring only
mid-text, with further text after it, leaves `waiting_for_input` false.
The legacy classifier (`ClineTelegramBot._process_output`) contradicts
this — and its own test suite (`test_telegram_bot.py`,
`TestPromptDetection`, case `("Continue? And more text", False)`) —
because its bracket, question-word and press-key patterns are not
end-anchored: on the failing input `"Continue? And more text"` it sets
`waiting_for_input` to true, while the refactored `PTYAgent` classifier,
whose patterns are all end-anchored, leaves it false as the claim, the
spec and the tests require. -/
theorem c1_prompt_anchoring_bug :
    (legacy_process_output legacyInitialState (lc "Continue? And more text")
        0).waiting_for_input = true ∧
    (pty_process_output ptyInitialState (lc "Continue? And more text")
        0).waiting_for_input = false := by decide

/-- C2 (counterexample): the claim says `get_output` always returns at
most 4000 characters, but `ACPAgent.get_output` appends whole chunks
with no budget check: on a queue holding one 4001-character chunk it
returns a 4001-character payload. -/
theorem c2_counterexample :
    4000 < (((acp_get_output [List.replicate 4001 'a']).1).getD []).length := by
  have h : (4001 : Nat) = 4000 + 1 := by norm_num
  rw [h, acp_get_output_replicate 4000]
  simp only [Option.getD_some, List.length_replicate]
  omega

/-- C2 (amended): for the PTY-side `get_output` the claim holds in this
form: every returned payload has at most 4000 characters; a chunk
longer than 4000 characters is left whole at the front and the call
returns nothing, leaving the queue unchanged (so such a chunk is never
returned, but also never truncated); and a front chunk of length at
most 4000 is consumed whole into the drained text (never split).  The
ACP-side `get_output` has no budget check and can exceed the ceiling. -/
theorem c2_payload_bounds :
    (∀ (q : List (List Char)) (s : List Char),
       (pty_get_output q).1 = some s → s.length ≤ 4000) ∧
    (∀ (c : List Char) (rest : List (List Char)), 4000 < c.length →
       pty_get_output (c :: rest) = (none, c :: rest)) ∧
    (∀ (c : List Char) (rest : List (List Char)), c.length ≤ 4000 →
       c <+: (get_output_drain (c :: rest) []).2) :=
  ⟨pty_get_output_length_le, pty_get_output_oversized, get_output_drain_head_fits⟩

/-- C2 (witness): the three parts of the amended theorem at concrete
inputs. -/
theorem c2_witness :
    (lc "hello").length ≤ 4000 ∧
    pty_get_output [List.replicate 4001 'b'] = (none, [List.replicate 4001 'b']) ∧
    lc "abc" <+: (get_output_drain [lc "abc", lc "def"] []).2 :=
  ⟨c2_payload_bounds.1 [lc "hello"] (lc "hello") (by decide),
   c2_payload_bounds.2.1 _ _ (by rw [List.length_replicate]; norm_num),
   c2_payload_bounds.2.2 (lc "abc") [lc "def"] (by decide)⟩

/-- C3 (counterexample): the claim says `start()` on a running session
returns false with no second process, but `PTYAgent.start` performs no
already-running check: called on a running agent (here one holding one
terminal and one child) it spawns a second child, allocates a second
terminal and returns true. -/
theorem c3_counterexample :
    (pty_start { ptyInitialState with
        is_running_flag := true
        ptys := 1
        procs := 1 } false).2 = true ∧
    (pty_start { ptyInitialState with
        is_running_flag := true
        ptys := 1
        procs := 1 } false).1.procs = 2 ∧
    (pty_start { ptyInitialState with
        is_running_flag := true
        ptys := 1
        procs := 1 } false).1.ptys = 2 := by
  refine ⟨rfl, rfl, rfl⟩

/-- C3 (amended): the already-running refusal holds in the legacy
session manager — `start_pty_session` returns false and changes
nothing when `session_active` — and, for the refactored code, one
level up: the bridge `/start` handler refuses without calling
`PTYAgent.start` when the agent is running.  `PTYAgent.start` itself
has no guard and spawns a second process when invoked directly. -/
theorem c3_start_guard :
    (∀ (st : ClineBotState) (dies : Bool), st.session_active = true →
       start_pty_session st dies = (st, false)) ∧
    (∀ (st : PTYAgentState) (dies : Bool), st.is_running_flag = true →
       bridge_handle_start st dies = (st, .alreadyRunning)) := by
  constructor
  · intro st dies h
    simp [start_pty_session, h]
  · intro st dies h
    simp [bridge_handle_start, h]

/-- C3 (witness): both refusals at concrete states. -/
theorem c3_witness :
    start_pty_session { legacyInitialState with session_active := true } true =
      ({ legacyInitialState with session_active := true }, false) ∧
    bridge_handle_start { ptyInitialState with is_running_flag := true } false =
      ({ ptyInitialState with is_running_flag := true }, .alreadyRunning) :=
  ⟨c3_start_guard.1 _ _ rfl, c3_start_guard.2 _ _ rfl⟩

set_option maxRecDepth 10000 in
/-- C4 (confirmed): the output queue never exceeds 100 entries — any
sequence of appends starting from the empty queue stays within 100 —
the entry evicted at capacity is exactly the oldest one, and feeding
150 distinct chunks leaves exactly the newest 100. -/
theorem c4_queue_bound :
    (∀ (chunks : List (List Char)),
       ((chunks.foldl (boundedAppend 100) []).length ≤ 100)) ∧
    (∀ (q : List (List Char)) (c : List Char), q.length = 100 →
       boundedAppend 100 q c = q.tail ++ [c]) ∧
    (((List.range 150).map (fun n => [Char.ofNat n])).foldl (boundedAppend 100) [] =
       ((List.range 150).drop 50).map (fun n => [Char.ofNat n])) := by
  refine ⟨fun chunks => foldl_boundedAppend_length_le chunks [] (by simp),
    fun q c h => boundedAppend_tail q c h (by norm_num), by decide⟩

/-- C4 (witness): eviction of the oldest entry at a concrete
100-element queue. -/
theorem c4_witness :
    boundedAppend 100 ((List.range 100).map (fun n => [Char.ofNat n]))
        [Char.ofNat 200] =
      ((List.range 100).map (fun n => [Char.ofNat n])).tail ++ [[Char.ofNat 200]] :=
  c4_queue_bound.2.1 _ _ (by simp)

/-- C5 (counterexample): the claim says a send that fails while writing
leaves `waiting_for_input` and `input_prompt` unchanged, but
`PTYAgent.send_command` clears both before the write: on a running
agent that is waiting with prompt `"[y/N]"`, a send whose write raises
returns an error string yet leaves the flag false and the prompt
empty. -/
theorem c5_counterexample :
    ((pty_send_command { ptyInitialState with
        is_running_flag := true
        waiting_for_input := true
        input_prompt := lc "[y/N]" } (lc "ls")
        (some (lc "Bad file descriptor"))).1.waiting_for_input = false) ∧
    ((pty_send_command { ptyInitialState with
        is_running_flag := true
        waiting_for_input := true
        input_prompt := lc "[y/N]" } (lc "ls")
        (some (lc "Bad file descriptor"))).1.input_prompt = []) ∧
    ((pty_send_command { ptyInitialState with
        is_running_flag := true
        waiting_for_input := true
        input_prompt := lc "[y/N]" } (lc "ls")
        (some (lc "Bad file descriptor"))).2.1 =
      lc "Error: Bad file descriptor") := by
  refine ⟨rfl, rfl, rfl⟩

/-- C5 (amended): `waiting_for_input` is set only by the classifier and
cleared by every send attempt that passes the running check, whether
the write succeeds or fails — both implementations clear the flag and
the prompt before writing (the legacy bot first applies its
30-second staleness pre-clear, which this unconditional clear
subsumes). -/
theorem c5_send_clears_waiting :
    (∀ (st : PTYAgentState) (cmd : List Char) (e : Option (List Char)),
       st.is_running_flag = true →
       (pty_send_command st cmd e).1.waiting_for_input = false ∧
       (pty_send_command st cmd e).1.input_prompt = []) ∧
    (∀ (st : ClineBotState) (cmd : List Char) (now : ℚ) (e : Option (List Char)),
       st.is_running = true →
       (legacy_send_command st cmd now e).1.waiting_for_input = false ∧
       (legacy_send_command st cmd now e).1.input_prompt = []) := by
  constructor
  · intro st cmd e h
    cases e <;> simp [pty_send_command, h]
  · intro st cmd now e h
    cases e <;> simp [legacy_send_command, h]

/-- C5 (witness): both clearing facts at concrete running states. -/
theorem c5_witness :
    ((pty_send_command { ptyInitialState with is_running_flag := true }
        (lc "ok") none).1.waiting_for_input = false ∧
     (pty_send_command { ptyInitialState with is_running_flag := true }
        (lc "ok") none).1.input_prompt = []) ∧
    ((legacy_send_command { legacyInitialState with is_running := true }
        (lc "ok") 0 none).1.waiting_for_input = false ∧
     (legacy_send_command { legacyInitialState with is_running := true }
        (lc "ok") 0 none).1.input_prompt = []) :=
  ⟨c5_send_clears_waiting.1 _ _ _ rfl, c5_send_clears_waiting.2 _ _ 0 _ rfl⟩

/-- C6 (counterexample): the claim says the fingerprint evicted at
capacity is strictly the oldest, but the legacy `output_monitor` keeps
its history in an unordered `set` pruned by `set.pop()`, which may
return any member.  Concretely: ten fingerprints `21, 32, ..., 120` arrive in that
order (`21` the oldest), fingerprint `131` is inserted, and the pop
returns `98` — a member, so a legitimate outcome of `set.pop()`.  The
oldest fingerprint `21` is still in the history and the newer
fingerprint `98` was evicted instead, so the eviction is not FIFO. -/
theorem c6_counterexample :
    (21 : Int) ∈
      legacy_recent_update [21, 32, 43, 54, 65, 76, 87, 98, 109, 120] 131 98 ∧
    (98 : Int) ∉
      legacy_recent_update [21, 32, 43, 54, 65, 76, 87, 98, 109, 120] 131 98 ∧
    (98 : Int) ∈ pySetAdd [21, 32, 43, 54, 65, 76, 87, 98, 109, 120] 131 := by
  decide

/-- C6 (amended): the duplicate-suppression history is bounded at 10
entries in both implementations — the bridge's `_recent_hashes` deque
across the `_filter_output` update, and the legacy monitor's
`recent_messages` set under every element `set.pop()` may return — but
oldest-first (FIFO) eviction holds only for the bridge's deque, the
spec's RecentHashSet: an insertion at capacity there evicts exactly
the oldest fingerprint, while the legacy set evicts an arbitrary
member. -/
theorem c6_recent_hashes_bound :
    (∀ (recent : List Int) (h : Int), recent.length ≤ 10 →
       ((filter_output_hashes recent h).1).length ≤ 10) ∧
    (∀ (recent : List Int) (h : Int), recent.length = 10 →
       recent.contains h = false →
       (filter_output_hashes recent h).1 = recent.tail ++ [h]) ∧
    (∀ (s : List Int) (h pick : Int), s.length ≤ 10 →
       pick ∈ pySetAdd s h →
       (legacy_recent_update s h pick).length ≤ 10) := by
  refine ⟨?_, ?_, ?_⟩
  · intro recent h hle
    unfold filter_output_hashes
    split_ifs with hc
    · exact hle
    · exact boundedAppend_length_le recent h hle
  · intro recent h hlen hc
    unfold filter_output_hashes
    have hnc : ¬ (recent.contains h = true) := by rw [hc]; simp
    rw [if_neg hnc]
    exact boundedAppend_tail recent h hlen (by norm_num)
  · intro s h pick hle hmem
    have hadd : (pySetAdd s h).length ≤ s.length + 1 := by
      unfold pySetAdd
      split_ifs <;> simp
    unfold legacy_recent_update
    split_ifs with hgt
    · rw [List.length_erase_of_mem hmem]
      omega
    · omega

/-- C6 (witness): all three parts at concrete full histories. -/
theorem c6_witness :
    ((filter_output_hashes ((List.range 10).map Int.ofNat) 99).1).length ≤ 10 ∧
    (filter_output_hashes ((List.range 10).map Int.ofNat) 99).1 =
      ((List.range 10).map Int.ofNat).tail ++ [99] ∧
    (legacy_recent_update [21, 32, 43, 54, 65, 76, 87, 98, 109, 120]
        131 21).length ≤ 10 :=
  ⟨c6_recent_hashes_bound.1 _ 99 (by decide),
   c6_recent_hashes_bound.2.1 _ 99 (by decide) (by decide),
   c6_recent_hashes_bound.2.2 _ 131 21 (by decide) (by decide)⟩

/-- C7 (counterexample): stripping terminal control sequences is not
idempotent.  On `"\x1b\x1b[0mA"` the first pass removes `"\x1b[0m"`,
splicing the leading ESC next to `A`; the second pass then removes the
newly formed two-character escape `"\x1bA"`, so applying the stripper
twice differs from applying it once. -/
theorem c7_counterexample :
    strip_ansi_codes (strip_ansi_codes (lc "\x1b\x1b[0mA")) ≠
      strip_ansi_codes (lc "\x1b\x1b[0mA") := by decide

/-- C7 (amended): the stripper is the identity on ESC-free text, so a
second application changes nothing whenever the first pass leaves no
ESC character in its output; in general a removal can splice a
surviving ESC together with following text into a new escape sequence,
and a second pass strips further. -/
theorem c7_strip_second_pass :
    ∀ (l : List Char), '\x1b' ∉ strip_ansi_codes l →
      strip_ansi_codes (strip_ansi_codes l) = strip_ansi_codes l :=
  fun _ h => strip_ansi_codes_of_noEsc _ h

/-- C7 (witness): a typical coloured chunk whose first pass removes
every ESC, making the second pass the identity. -/
theorem c7_witness :
    '\x1b' ∉ strip_ansi_codes (lc "\x1b[32mGreen\x1b[0m ok") ∧
    strip_ansi_codes (strip_ansi_codes (lc "\x1b[32mGreen\x1b[0m ok")) =
      strip_ansi_codes (lc "\x1b[32mGreen\x1b[0m ok") :=
  ⟨by decide, c7_strip_second_pass _ (by decide)⟩

/-- C8 (confirmed): per-sender rate limiting.  For a sender whose last
accepted message is recorded at time `t`, a free-text message at `now`
with `now - t < 0.5` is rejected as rate-limited — it is not forwarded
and the recorded timestamp stays `t` — while a message with
`now - t ≥ 0.5` is accepted, forwarded to the agent, and the
timestamp is updated to `now` (the agent running and the text within
the size limit). -/
theorem c8_rate_limit :
    ∀ (rs : RateState) (sender text : List Char) (now t : ℚ),
      rs.last_message_time sender = some t →
      text.length ≤ 10000 →
      ((now - t < 1/2 →
         (handle_regular_message rs true sender text now).2 = .rateLimited ∧
         (handle_regular_message rs true sender text now).1.last_message_time
           sender = some t) ∧
       (1/2 ≤ now - t →
         (handle_regular_message rs true sender text now).2 = .forwarded ∧
         (handle_regular_message rs true sender text now).1.last_message_time
           sender = some now)) := by
  intro rs sender text now t hlook hlen
  have hnotlong : ¬ (10000 < text.length) := Nat.not_lt.mpr hlen
  by_cases hcl : 3600 < now - rs.last_cleanup
  · by_cases hkeep : now - t ≤ 86400
    · have hlook1 : (purgeStale rs.last_message_time now) sender = some t := by
        simp [purgeStale, hlook, hkeep]
      constructor
      · intro hlt
        rw [one_div] at hlt
        simp [handle_regular_message, hnotlong, hcl, hlook1, hlt]
      · intro hge
        have hnotlt : ¬ (now - t < 1/2) := not_lt.mpr hge
        rw [one_div] at hnotlt
        simp [handle_regular_message, hnotlong, hcl, hlook1, hnotlt, dictSet]
    · have hlook1 : (purgeStale rs.last_message_time now) sender = none := by
        simp [purgeStale, hlook, hkeep]
      constructor
      · intro hlt
        exact absurd (by linarith : now - t ≤ 86400) hkeep
      · intro hge
        simp [handle_regular_message, hnotlong, hcl, hlook1, dictSet]
  · constructor
    · intro hlt
      rw [one_div] at hlt
      simp [handle_regular_message, hnotlong, hcl, hlook, hlt]
    · intro hge
      have hnotlt : ¬ (now - t < 1/2) := not_lt.mpr hge
      rw [one_div] at hnotlt
      simp [handle_regular_message, hnotlong, hcl, hlook, hnotlt, dictSet]

/-- C8 (witness): sender `"7"` accepted at time 0; a second message at
0.25 s is rate-limited, one at 2 s is forwarded. -/
theorem c8_witness :
    (handle_regular_message ⟨fun s => if s = lc "7" then some 0 else none, 0⟩
        true (lc "7") (lc "hi") (1/4)).2 = .rateLimited ∧
    (handle_regular_message ⟨fun s => if s = lc "7" then some 0 else none, 0⟩
        true (lc "7") (lc "hi") 2).2 = .forwarded :=
  ⟨((c8_rate_limit _ (lc "7") (lc "hi") (1/4) 0 (by simp) (by decide)).1
      (by norm_num)).1,
   ((c8_rate_limit _ (lc "7") (lc "hi") 2 0 (by simp) (by decide)).2
      (by norm_num)).1⟩

/-- C9 (confirmed): sending while no session is active yields the
not-running error string of each implementation, writes nothing to any
terminal (the write list is empty), and leaves the state — including
the spawned-process count — unchanged. -/
theorem c9_send_not_running :
    (∀ (st : PTYAgentState) (cmd : List Char) (e : Option (List Char)),
       st.is_running_flag = false →
       pty_send_command st cmd e = (st, lc "Error: Agent not running", [])) ∧
    (∀ (st : ClineBotState) (cmd : List Char) (now : ℚ) (e : Option (List Char)),
       st.is_running = false →
       legacy_send_command st cmd now e =
         (st, lc "Error: PTY session not running", [])) := by
  constructor
  · intro st cmd e h
    simp [pty_send_command, h]
  · intro st cmd now e h
    simp [legacy_send_command, h]

/-- C9 (witness): both refusals at the freshly constructed states. -/
theorem c9_witness :
    pty_send_command ptyInitialState (lc "hello") none =
      (ptyInitialState, lc "Error: Agent not running", []) ∧
    legacy_send_command legacyInitialState (lc "hello") 0 none =
      (legacyInitialState, lc "Error: PTY session not running", []) :=
  ⟨c9_send_not_running.1 _ _ _ rfl, c9_send_not_running.2 _ _ 0 _ rfl⟩

/-- C10 (confirmed): when the remote-API agent's endpoint yields no
reply, `send_command` returns the error string, queues no output, and
keeps the just-appended user turn with no assistant turn after it; a
second failing call therefore leaves two consecutive user-role entries
in the history. -/
theorem c10_acp_failure_history :
    ∀ (st : ACPState) (cmd cmd2 : List Char), st.is_running_flag = true →
      (acp_send_command st cmd none).2 = lc "Error: No response from agent" ∧
      (acp_send_command st cmd none).1.output_queue = st.output_queue ∧
      (acp_send_command st cmd none).1.conversation_history =
        st.conversation_history ++ [(lc "user", cmd)] ∧
      (acp_send_command (acp_send_command st cmd none).1 cmd2
          none).1.conversation_history =
        st.conversation_history ++ [(lc "user", cmd), (lc "user", cmd2)] := by
  intro st cmd cmd2 h
  simp [acp_send_command, h]

/-- C10 (witness): two failing sends on a fresh running agent leave the
history `[user a, user b]` with no assistant turn. -/
theorem c10_witness :
    (acp_send_command ⟨true, [], []⟩ (lc "a") none).2 =
      lc "Error: No response from agent" ∧
    (acp_send_command ⟨true, [], []⟩ (lc "a") none).1.output_queue = [] ∧
    (acp_send_command ⟨true, [], []⟩ (lc "a") none).1.conversation_history =
      [(lc "user", lc "a")] ∧
    (acp_send_command (acp_send_command ⟨true, [], []⟩ (lc "a") none).1 (lc "b")
        none).1.conversation_history =
      [(lc "user", lc "a"), (lc "user", lc "b")] := by
  have h := c10_acp_failure_history ⟨true, [], []⟩ (lc "a") (lc "b") rfl
  simpa using h
